/-
Verification of the chat-frontend transport and upload-status poller
(`src/services/api.ts`).

The development shallowly embeds the two stateful pieces of the service
layer:

* `fileUploadService.pollFileStatus` — the bounded status-polling loop.
  The network is abstracted as a function `fetch : Nat → Except String
  FileStatusResponse` giving the result of `getFileStatus` on the n-th
  attempt (1-indexed); the optional `onStatusUpdate` observer is modelled
  by additionally returning, in call order, the list of statuses that the
  observer is shown.

* `WebSocketChatService` — the reconnecting WebSocket transport.  The
  service instance is a record; the browser/event-loop environment is a
  stream of events (`Ev`) consumed by a guarded small-step function
  `step`, which emits the observable `Effect`s of each handler
  (socket creation, handler notifications, `setTimeout` scheduling, …).
-/
import Mathlib

namespace ChatbotFrontend

/-! ### Data model (`src/types/index.ts`) -/

/-- `FileStatusResponse` from `src/types/index.ts`.  The `status` field is
typed as a string union in TypeScript, but at runtime any server-provided
string can occur, so it is modelled as `String`. -/
structure FileStatusResponse where
  file_id : String
  status : String
  detail : String
deriving DecidableEq, Repr

/-- Inbound chat frame shape (`ChatMessage` interface in
`src/services/api.ts`). -/
structure ChatMessage where
  sender : String
  message : String
  timestamp : String
deriving DecidableEq, Repr

/-- Outgoing frame shape (`WebSocketMessage` interface in
`src/services/api.ts`). -/
structure WebSocketMessage where
  message : String
deriving DecidableEq, Repr

/-! ### The upload-status poller (`fileUploadService.pollFileStatus`) -/

/-- The distinct rejection sites of `pollFileStatus`, one constructor per
`reject(...)` call in the source (plus the catch-all for a failed
`getFileStatus` request). -/
inductive PollError
  | processingFailed (detail : String)
  | timeoutErr (msg : String)
  | unexpectedStatus (status : String)
  | fetchFailed (msg : String)
deriving DecidableEq, Repr

/-- Outcome of the polling promise: `resolve(status)` or `reject(error)`. -/
inductive PollResult
  | resolved (status : FileStatusResponse)
  | rejected (e : PollError)
deriving DecidableEq, Repr

/-- JavaScript string fallback `a || b` (the empty string is falsy). -/
def strOrElse (a b : String) : String :=
  if a = "" then b else a

/-- `fileUploadService.pollFileStatus` (`src/services/api.ts`, lines
212–262).  `fetch i` is the result of `this.getFileStatus(fileId)` on the
i-th attempt; `.error` models the request throwing (caught by the
`catch`, which rejects).  `attempts` is the closed-over counter (`0` at
the top-level call).  The second component of the result is the sequence
of statuses reported to the `onStatusUpdate` observer, in call order:
in the source the observer is invoked directly after the fetch, before
any of the terminal checks of that iteration.  The branch structure and
order (`processed`, `unknown`, `attempts >= maxAttempts`, `processing`,
otherwise unexpected) mirror the source. -/
def pollFileStatus (fetch : Nat → Except String FileStatusResponse)
    (pollInterval : Nat) (maxAttempts : Nat) (attempts : Nat) :
    PollResult × List FileStatusResponse :=
  let attempts2 := attempts + 1
  match fetch attempts2 with
  | .error e => (.rejected (.fetchFailed e), [])
  | .ok status =>
    if status.status = "processed" then
      (.resolved status, [status])
    else if status.status = "unknown" then
      (.rejected (.processingFailed
        (strOrElse status.detail "File processing failed with unknown status")),
       [status])
    else if h : attempts2 ≥ maxAttempts then
      (.rejected (.timeoutErr "File processing timeout - file is still processing"),
       [status])
    else if status.status = "processing" then
      let r := pollFileStatus fetch pollInterval maxAttempts attempts2
      (r.1, status :: r.2)
    else
      (.rejected (.unexpectedStatus status.status), [status])
termination_by maxAttempts - attempts
decreasing_by
  simp only [not_le] at h
  omega

/-! ### The WebSocket transport (`WebSocketChatService`) -/

/-- Browser `WebSocket.readyState` values. -/
inductive ReadyState
  | CONNECTING
  | OPEN
  | CLOSING
  | CLOSED
deriving DecidableEq, Repr

/-- Default `WS_BASE_URL` (`ws://localhost:8000`). -/
def WS_BASE_URL : String := "ws://localhost:8000"

/-- `private maxReconnectAttempts = 5` — never reassigned in the source. -/
def maxReconnectAttempts : Nat := 5

/-- `private reconnectDelay = 1000` — never reassigned in the source. -/
def reconnectDelay : Nat := 1000

/-- The mutable fields of the `WebSocketChatService` class instance plus
the parts of its environment that its behaviour reads or owns:

* `ws` — `this.ws`: `none` models `null`; `some rs` a socket object whose
  `readyState` is `rs`.
* `reconnectAttempts` — `this.reconnectAttempts`.
* `messageHandlerSet` / `connectionHandlerSet` — whether
  `this.messageHandler` / `this.connectionHandler` are non-null (they are
  invoked with `?.`).
* `storedToken` — `localStorage.getItem('authToken')`, read through
  `authService.getStoredToken()` by `connect()`.
* `pendingReconnects` — the number of `setTimeout` reconnect callbacks
  scheduled by `scheduleReconnect` and not yet fired.  The source keeps no
  handle to these timers and never calls `clearTimeout`.
* `detachedClosing` — a socket that `disconnect()` closed (and unlinked
  from `this.ws`) whose `close` event, with the requested code 1000, has
  not yet been dispatched to the still-attached `onclose` handler. -/
structure WebSocketChatService where
  ws : Option ReadyState
  reconnectAttempts : Nat
  messageHandlerSet : Bool
  connectionHandlerSet : Bool
  storedToken : Option String
  pendingReconnects : Nat
  detachedClosing : Bool
deriving DecidableEq, Repr

/-- Observable actions of the service: socket operations, handler
invocations, console logging, timer scheduling and the settling of the
promise returned by `connect()`. -/
inductive Effect
  | createSocket (url : String)
  | notifyConnection (connected : Bool)
  | deliverMessage (data : ChatMessage)
  | scheduleReconnect (delayMs : Nat)
  | closeSocket (code : Nat) (reason : String)
  | sendFrame (payload : String)
  | logInfo (msg : String)
  | logError (msg : String)
  | resolveConnect
  | rejectConnect (msg : String)
deriving DecidableEq, Repr

/-- The synchronous body of `connect()` (lines 60–70): read the stored
token, throw when it is absent (JavaScript `!token` is also true for the
empty string), otherwise build the endpoint and construct the socket
(`this.ws = new WebSocket(wsEndpoint)`). -/
def connectCall (s : WebSocketChatService) :
    Except String (WebSocketChatService × List Effect) :=
  match s.storedToken with
  | none => .error "No authentication token available"
  | some token =>
    if token = "" then .error "No authentication token available"
    else
      let wsEndpoint := WS_BASE_URL ++ "/ws/chat?token=" ++ token
      .ok ({ s with ws := some .CONNECTING }, [.createSocket wsEndpoint])

/-- The `onopen` handler (lines 72–77): log, reset the attempt counter,
notify the connection handler (if registered) with `true`, resolve the
`connect()` promise.  The platform has just moved `readyState` to
`OPEN`. -/
def onopen (s : WebSocketChatService) : WebSocketChatService × List Effect :=
  ({ s with ws := some .OPEN, reconnectAttempts := 0 },
   [.logInfo "WebSocket connected"] ++
     (if s.connectionHandlerSet then [.notifyConnection true] else []) ++
     [.resolveConnect])

/-- The `onmessage` handler (lines 79–87), parameterised by the behaviour
`P` of `JSON.parse` on the frame payload: on success the parsed value is
logged and handed to the registered message handler (if any); a parse
failure is caught and logged, and nothing is delivered. -/
def onmessage (P : String → Option ChatMessage) (s : WebSocketChatService)
    (payload : String) : List Effect :=
  match P payload with
  | some data =>
      [.logInfo "Received message:"] ++
        (if s.messageHandlerSet then [.deliverMessage data] else [])
  | none => [.logError "Failed to parse WebSocket message:"]

/-- `private scheduleReconnect()` (lines 116–126): compute
`delay = reconnectDelay * 2 ^ reconnectAttempts`, log, and `setTimeout` a
callback (tracked by `pendingReconnects`; the attempt counter is
incremented only when the timer later fires). -/
def scheduleReconnect (s : WebSocketChatService) :
    WebSocketChatService × List Effect :=
  let delay := reconnectDelay * 2 ^ s.reconnectAttempts
  ({ s with pendingReconnects := s.pendingReconnects + 1 },
   [.logInfo "Scheduling reconnect", .scheduleReconnect delay])

/-- The `onclose` handler (lines 89–103): log, notify the connection
handler with `false`; code 1008 returns early ("authentication failed,
not attempting to reconnect"); otherwise reconnection is scheduled iff
the code is not 1000 and the attempt counter is below the maximum. -/
def onclose (s : WebSocketChatService) (code : Nat) :
    WebSocketChatService × List Effect :=
  let notif := [Effect.logInfo "WebSocket closed:"] ++
    (if s.connectionHandlerSet then [Effect.notifyConnection false] else [])
  if code = 1008 then
    (s, notif ++ [.logInfo "Authentication failed, not attempting to reconnect"])
  else if code ≠ 1000 ∧ s.reconnectAttempts < maxReconnectAttempts then
    let r := scheduleReconnect s
    (r.1, notif ++ r.2)
  else
    (s, notif)

/-- The `setTimeout` callback installed by `scheduleReconnect`
(lines 120–125): increment the attempt counter and call `connect()`,
logging (and otherwise swallowing) a synchronous failure via `.catch`. -/
def reconnectTimerFire (s : WebSocketChatService) :
    WebSocketChatService × List Effect :=
  let s1 := { s with pendingReconnects := s.pendingReconnects - 1,
                     reconnectAttempts := s.reconnectAttempts + 1 }
  match connectCall s1 with
  | .error _ => (s1, [.logError "Reconnection failed:"])
  | .ok r => r

/-- `disconnect()` (lines 145–150): if a socket is linked, request
`close(1000, 'Manual disconnect')` and null the `this.ws` field.  No
timer handle is stored anywhere and `clearTimeout` is never called, so
`pendingReconnects` is untouched.  A not-yet-closed socket will still
dispatch its `close` event (code 1000) to the attached `onclose`
handler; `detachedClosing` records that. -/
def disconnect (s : WebSocketChatService) : WebSocketChatService × List Effect :=
  match s.ws with
  | some rs =>
    ({ s with ws := none,
              detachedClosing := if rs = .CLOSED then s.detachedClosing else true },
     [.closeSocket 1000 "Manual disconnect"])
  | none => (s, [])

/-- `isConnected()` (lines 152–154): `this.ws?.readyState === WebSocket.OPEN`. -/
def isConnected (s : WebSocketChatService) : Bool :=
  s.ws = some ReadyState.OPEN

/-- The spec's three-valued Connection State, read off the socket
handle. -/
inductive ConnectionState
  | disconnected
  | connecting
  | connected
deriving DecidableEq, Repr

/-- Map the service state to the spec's Connection State: `connected`
iff an `OPEN` socket is linked, `connecting` iff a `CONNECTING` one is. -/
def connectionState (s : WebSocketChatService) : ConnectionState :=
  match s.ws with
  | some .OPEN => .connected
  | some .CONNECTING => .connecting
  | _ => .disconnected

/-! #### JSON serialisation of the outgoing frame (`JSON.stringify`) -/

/-- Lower-case hexadecimal digit, as produced by `JSON.stringify` for
control-character escapes. -/
def hexDigitChar (n : Nat) : Char :=
  if n < 10 then Char.ofNat (48 + n) else Char.ofNat (87 + n)

/-- Escaping of a single character inside a JSON string literal, as
performed by `JSON.stringify`. -/
def jsonEscapeChar (c : Char) : String :=
  if c = '"' then "\\\""
  else if c = '\\' then "\\\\"
  else if c = '\x08' then "\\b"
  else if c = '\t' then "\\t"
  else if c = '\n' then "\\n"
  else if c = '\x0c' then "\\f"
  else if c = '\r' then "\\r"
  else if c.toNat < 32 then
    "\\u00" ++ String.singleton (hexDigitChar (c.toNat / 16)) ++
      String.singleton (hexDigitChar (c.toNat % 16))
  else String.singleton c

/-- JSON string literal for `s`. -/
def jsonQuote (s : String) : String :=
  "\"" ++ String.join (s.data.map jsonEscapeChar) ++ "\""

/-- `JSON.stringify` of the one-field object `{ message }` — note `\x7b`
and `\x7d` denote the literal braces of the serialised object. -/
def jsonStringifyWebSocketMessage (m : WebSocketMessage) : String :=
  "\x7b\"message\":" ++ jsonQuote m.message ++ "\x7d"

/-- `sendMessage(message)` (lines 128–135), returning either the thrown
error or the emitted effects: the guard is the source's
`!this.ws || this.ws.readyState !== WebSocket.OPEN`. -/
def sendMessage (s : WebSocketChatService) (message : String) :
    Except String (List Effect) :=
  match s.ws with
  | none => .error "WebSocket is not connected"
  | some rs =>
    if rs ≠ .OPEN then .error "WebSocket is not connected"
    else .ok [.sendFrame (jsonStringifyWebSocketMessage ⟨message⟩)]

/-! #### Event-loop semantics -/

/-- Environment events consumed by the service: the two public calls
(`connect()` / `disconnect()`), the three socket events dispatched by the
browser, and the firing of a scheduled reconnect timer. -/
inductive Ev
  | connectRequest
  | openEvent
  | messageEvent (payload : String)
  | closeEvent (code : Nat)
  | timerFire
  | disconnectRequest
deriving DecidableEq, Repr

/-- Guarded small step.  `none` means the event cannot occur in this
state (no socket to open/close, no pending timer to fire).  The platform
moves `readyState` to `OPEN`/`CLOSED` before running the corresponding
handler; a socket detached by `disconnect()` delivers its `close` event
with the requested code 1000.  `P` is the `JSON.parse` behaviour used by
`onmessage`. -/
def step (P : String → Option ChatMessage) (s : WebSocketChatService) :
    Ev → Option (WebSocketChatService × List Effect)
  | .connectRequest =>
    match connectCall s with
    | .error msg => some (s, [.rejectConnect msg])
    | .ok r => some r
  | .openEvent =>
    match s.ws with
    | some .CONNECTING => some (onopen s)
    | _ => none
  | .messageEvent payload =>
    match s.ws with
    | some .OPEN => some (s, onmessage P s payload)
    | _ => none
  | .closeEvent code =>
    match s.ws with
    | some rs =>
      if rs = .CLOSED then none
      else some (onclose { s with ws := some .CLOSED } code)
    | none =>
      if s.detachedClosing ∧ code = 1000 then
        some (onclose { s with detachedClosing := false } code)
      else none
  | .timerFire =>
    if s.pendingReconnects = 0 then none
    else some (reconnectTimerFire s)
  | .disconnectRequest => some (disconnect s)

/-- Run a sequence of events, collecting all emitted effects in order;
events whose guard fails cannot occur and are skipped. -/
def run (P : String → Option ChatMessage) (s : WebSocketChatService) :
    List Ev → WebSocketChatService × List Effect
  | [] => (s, [])
  | e :: es =>
    match step P s e with
    | none => run P s es
    | some (s2, effs) =>
      let r := run P s2 es
      (r.1, effs ++ r.2)

/-! #### Observation helpers -/

/-- Is the effect a `setTimeout` of a reconnect? -/
def isScheduleEffect : Effect → Bool
  | .scheduleReconnect _ => true
  | _ => false

/-- Is the effect the construction of a new `WebSocket` (a connect
attempt)? -/
def isCreateSocketEffect : Effect → Bool
  | .createSocket _ => true
  | _ => false

/-- Is the effect a delivery to the registered message handler? -/
def isDeliverEffect : Effect → Bool
  | .deliverMessage _ => true
  | _ => false

/-- Number of reconnect timers scheduled in an effect list. -/
def countSchedules (l : List Effect) : Nat :=
  (l.filter isScheduleEffect).length

/-- 1 when a not-yet-closed socket is linked, else 0. -/
def liveCount (s : WebSocketChatService) : Nat :=
  if s.ws = some .CONNECTING ∨ s.ws = some .OPEN ∨ s.ws = some .CLOSING then 1
  else 0

/-- Upper bound on the reconnects that can still be scheduled from `s`
without an intervening successful open or external `connect()` call. -/
def schedBound (s : WebSocketChatService) : Nat :=
  if liveCount s = 1 then maxReconnectAttempts - s.reconnectAttempts
  else if 1 ≤ s.pendingReconnects then
    maxReconnectAttempts - (s.reconnectAttempts + 1)
  else 0

/-- Event lists containing neither a `connect()` call nor a successful
open handshake: within such a stretch the attempt counter is never
reset. -/
def noConnectNoOpen (es : List Ev) : Prop :=
  ∀ e ∈ es, e ≠ Ev.connectRequest ∧ e ≠ Ev.openEvent

instance : DecidablePred noConnectNoOpen := fun es => by
  unfold noConnectNoOpen
  infer_instance

/-! #### Concrete fixtures used by witnesses and counterexamples -/

/-- A fetch result with status `processing`. -/
def processingStatus : FileStatusResponse :=
  { file_id := "file-1", status := "processing", detail := "" }

/-- A fetch result with status `processed`. -/
def processedStatus : FileStatusResponse :=
  { file_id := "file-1", status := "processed", detail := "done" }

/-- A fetch result with status `unknown` and a server-provided detail. -/
def unknownStatus : FileStatusResponse :=
  { file_id := "file-1", status := "unknown", detail := "corrupt file" }

/-- A fetch result with a status outside the poller's expected set. -/
def errorStatus : FileStatusResponse :=
  { file_id := "file-1", status := "error", detail := "boom" }

/-- A backing job that reports `processing` on every poll. -/
def alwaysProcessing : Nat → Except String FileStatusResponse :=
  fun _ => .ok processingStatus

/-- A backing job that reports `processed` on the first poll. -/
def processedFirst : Nat → Except String FileStatusResponse :=
  fun _ => .ok processedStatus

/-- Status sequence: `processing` for the first 29 polls, then the
out-of-contract status `error` on the 30th. -/
def lateErrorStf : Nat → FileStatusResponse :=
  fun i => if i < 30 then processingStatus else errorStatus

/-- Fetch wrapper of `lateErrorStf`. -/
def lateErrorFetch : Nat → Except String FileStatusResponse :=
  fun i => .ok (lateErrorStf i)

/-- A `JSON.parse` behaviour for concrete runs: accepts a single fixed
payload. -/
def fixedParse : String → Option ChatMessage :=
  fun payload =>
    if payload = "\x7b\"sender\":\"bot\",\"message\":\"hi\",\"timestamp\":\"t0\"\x7d" then
      some { sender := "bot", message := "hi", timestamp := "t0" }
    else none

/-- A freshly constructed service (all class-field initialisers) with
both handlers registered and a stored token. -/
def initService (token : Option String) : WebSocketChatService :=
  { ws := none, reconnectAttempts := 0, messageHandlerSet := true,
    connectionHandlerSet := true, storedToken := token,
    pendingReconnects := 0, detachedClosing := false }

end ChatbotFrontend

namespace ChatbotFrontend

/-! ### Poller lemmas -/

lemma pollFileStatus_fetch_error {fetch pi max a e} (he : fetch (a + 1) = .error e) :
    pollFileStatus fetch pi max a = (.rejected (.fetchFailed e), []) := by
  rw [pollFileStatus]
  simp [he]

lemma pollFileStatus_processed {fetch pi max a st} (hf : fetch (a + 1) = .ok st)
    (hs : st.status = "processed") :
    pollFileStatus fetch pi max a = (.resolved st, [st]) := by
  rw [pollFileStatus]
  simp [hf, hs]

lemma pollFileStatus_unknown {fetch pi max a st} (hf : fetch (a + 1) = .ok st)
    (hs : st.status = "unknown") :
    pollFileStatus fetch pi max a =
      (.rejected (.processingFailed
        (strOrElse st.detail "File processing failed with unknown status")), [st]) := by
  rw [pollFileStatus]
  simp [hf, hs]

lemma pollFileStatus_timeout {fetch pi max a st} (hf : fetch (a + 1) = .ok st)
    (h1 : st.status ≠ "processed") (h2 : st.status ≠ "unknown")
    (hcap : a + 1 ≥ max) :
    pollFileStatus fetch pi max a =
      (.rejected (.timeoutErr "File processing timeout - file is still processing"), [st]) := by
  rw [pollFileStatus]
  simp [hf, h1, h2, hcap]

lemma pollFileStatus_unexpected {fetch pi max a st} (hf : fetch (a + 1) = .ok st)
    (h1 : st.status ≠ "processed") (h2 : st.status ≠ "unknown")
    (h3 : st.status ≠ "processing") (hcap : a + 1 < max) :
    pollFileStatus fetch pi max a = (.rejected (.unexpectedStatus st.status), [st]) := by
  rw [pollFileStatus]
  simp [hf, h1, h2, h3, Nat.not_le.mpr hcap]

lemma pollFileStatus_processing_step {fetch pi max a st} (hf : fetch (a + 1) = .ok st)
    (hs : st.status = "processing") (hcap : a + 1 < max) :
    pollFileStatus fetch pi max a =
      ((pollFileStatus fetch pi max (a + 1)).1,
        st :: (pollFileStatus fetch pi max (a + 1)).2) := by
  rw [pollFileStatus]
  simp [hf, hs, Nat.not_le.mpr hcap]

end ChatbotFrontend
namespace ChatbotFrontend

lemma pollFileStatus_skip {fetch : Nat → Except String FileStatusResponse} {pi max : Nat}
    (stf : Nat → FileStatusResponse) (d a : Nat)
    (hcap : a + d < max)
    (hproc : ∀ i, a < i → i ≤ a + d → fetch i = .ok (stf i) ∧ (stf i).status = "processing") :
    pollFileStatus fetch pi max a =
      ((pollFileStatus fetch pi max (a + d)).1,
        ((List.range d).map (fun j => stf (a + j + 1))) ++
          (pollFileStatus fetch pi max (a + d)).2) := by
  induction d generalizing a with
  | zero => simp
  | succ n ih =>
    have h1 : fetch (a + 1) = .ok (stf (a + 1)) ∧ (stf (a + 1)).status = "processing" :=
      hproc (a + 1) (by omega) (by omega)
    rw [pollFileStatus_processing_step h1.1 h1.2 (by omega)]
    have hrec := ih (a := a + 1) (by omega)
      (fun i hi1 hi2 => hproc i (by omega) (by omega))
    rw [hrec]
    have hidx : a + 1 + n = a + (n + 1) := by omega
    rw [hidx]
    simp only [Prod.mk.injEq, true_and]
    rw [List.range_succ_eq_map]
    simp only [List.map_cons, List.map_map, List.cons_append]
    have hhead : stf (a + 1) = stf (a + 0 + 1) := by norm_num
    have htail : List.map (fun j => stf (a + 1 + j + 1)) (List.range n)
        = List.map ((fun j => stf (a + j + 1)) ∘ Nat.succ) (List.range n) := by
      apply List.map_congr_left
      intro j hj
      simp only [Function.comp_apply]
      congr 1
      omega
    rw [hhead, htail]

end ChatbotFrontend
namespace ChatbotFrontend


end ChatbotFrontend

namespace ChatbotFrontend

/-! ### Poller claims -/

lemma range_map_snoc (stf : Nat → FileStatusResponse) (k : Nat) (hk : 1 ≤ k) :
    (List.range (k - 1)).map (fun j => stf (j + 1)) ++ [stf k] =
      (List.range k).map (fun j => stf (j + 1)) := by
  conv_rhs => rw [show k = (k - 1) + 1 by omega]
  rw [List.range_succ]
  simp [show k - 1 + 1 = k by omega]

/-- C4 (amended).  If the backing job reports `processing` on every
poll, the poller performs exactly 30 polls — all of them reported to the
observer — and rejects with the `TimeoutError` during the 30th poll,
immediately after that poll observes `processing`; no 31st poll is
performed. -/
theorem pollFileStatus_all_processing_timeout
    (fetch : Nat → Except String FileStatusResponse)
    (stf : Nat → FileStatusResponse) (pi : Nat)
    (hf : ∀ i, fetch i = .ok (stf i))
    (hp : ∀ i, (stf i).status = "processing") :
    pollFileStatus fetch pi 30 0 =
      (.rejected (.timeoutErr "File processing timeout - file is still processing"),
        (List.range 30).map (fun j => stf (j + 1))) := by
  have hskip := @pollFileStatus_skip fetch pi 30 stf 29 0
    (by omega) (fun i hi1 hi2 => ⟨hf i, hp i⟩)
  simp only [Nat.zero_add] at hskip
  have h1 : (stf 30).status ≠ "processed" := by rw [hp 30]; decide
  have h2 : (stf 30).status ≠ "unknown" := by rw [hp 30]; decide
  have hterm := @pollFileStatus_timeout fetch pi 30 29 (stf 30)
    (hf 30) h1 h2 (by omega)
  rw [hskip, hterm]
  simp only [Prod.mk.injEq, true_and]
  exact range_map_snoc stf 30 (by omega)

/-- Witness for C4's amended claim at a concrete all-`processing` job. -/
theorem pollFileStatus_all_processing_timeout_witness :
    pollFileStatus alwaysProcessing 2000 30 0 =
      (.rejected (.timeoutErr "File processing timeout - file is still processing"),
        (List.range 30).map (fun _ => processingStatus)) := by
  exact pollFileStatus_all_processing_timeout alwaysProcessing
    (fun _ => processingStatus) 2000 (fun i => rfl) (fun i => rfl)

/-- C4 counterexample to the claim as stated: on an all-`processing`
job the rejection happens having performed exactly 30 polls — no 31st
poll attempt exists for the rejection to happen on. -/
theorem pollFileStatus_no_31st_poll_counterexample :
    (pollFileStatus alwaysProcessing 2000 30 0).1 =
      .rejected (.timeoutErr "File processing timeout - file is still processing") ∧
    (pollFileStatus alwaysProcessing 2000 30 0).2.length = 30 := by
  have hskip := @pollFileStatus_skip alwaysProcessing 2000 30
    (fun _ => processingStatus) 29 0 (by omega) (fun i hi1 hi2 => ⟨rfl, rfl⟩)
  simp only [Nat.zero_add] at hskip
  have hterm := @pollFileStatus_timeout alwaysProcessing 2000
    30 29 processingStatus rfl (by decide) (by decide) (by omega)
  rw [hskip, hterm]
  simp

end ChatbotFrontend

namespace ChatbotFrontend

/-- C5 (amended).  Let poll `k` be the first poll whose status is not
`processing` (all fetches succeeding).  Then: `processed` resolves with
that status; `unknown` rejects with the `ProcessingFailedError` carrying
the server-provided detail (with the source's fallback text when the
detail is empty) and no further poll is performed; any other status
rejects with the `UnexpectedStatusError` — unless `k` is the 30th
(`maxAttempts`-th) poll, in which case the attempt-cap check precedes the
unexpected-status check and the poller rejects with the `TimeoutError`
instead.  In every case the observer list is exactly the `k` polled
statuses. -/
theorem pollFileStatus_first_terminal
    (fetch : Nat → Except String FileStatusResponse)
    (stf : Nat → FileStatusResponse) (pi k : Nat)
    (hf : ∀ i, fetch i = .ok (stf i))
    (hk1 : 1 ≤ k) (hk30 : k ≤ 30)
    (hpre : ∀ i, 1 ≤ i → i < k → (stf i).status = "processing") :
    ((stf k).status = "processed" →
      pollFileStatus fetch pi 30 0 =
        (.resolved (stf k), (List.range k).map (fun j => stf (j + 1)))) ∧
    ((stf k).status = "unknown" →
      pollFileStatus fetch pi 30 0 =
        (.rejected (.processingFailed
            (strOrElse (stf k).detail "File processing failed with unknown status")),
          (List.range k).map (fun j => stf (j + 1)))) ∧
    ((stf k).status ≠ "processed" → (stf k).status ≠ "unknown" →
        (stf k).status ≠ "processing" → k < 30 →
      pollFileStatus fetch pi 30 0 =
        (.rejected (.unexpectedStatus (stf k).status),
          (List.range k).map (fun j => stf (j + 1)))) ∧
    ((stf k).status ≠ "processed" → (stf k).status ≠ "unknown" → k = 30 →
      pollFileStatus fetch pi 30 0 =
        (.rejected (.timeoutErr "File processing timeout - file is still processing"),
          (List.range k).map (fun j => stf (j + 1)))) := by
  have hskip := @pollFileStatus_skip fetch pi 30 stf (k - 1) 0
    (by omega) (fun i hi1 hi2 => ⟨hf i, hpre i (by omega) (by omega)⟩)
  simp only [Nat.zero_add] at hskip
  have hkk : k - 1 + 1 = k := by omega
  have hfk : fetch (k - 1 + 1) = .ok (stf k) := by rw [hkk]; exact hf k
  have hobs : (List.range (k - 1)).map (fun j => stf (j + 1)) ++ [stf k]
      = (List.range k).map (fun j => stf (j + 1)) := range_map_snoc stf k hk1
  refine ⟨?_, ?_, ?_, ?_⟩
  · intro hs
    rw [hskip, pollFileStatus_processed hfk hs]
    simp only [Prod.mk.injEq, true_and]
    exact hobs
  · intro hs
    rw [hskip, pollFileStatus_unknown hfk hs]
    simp only [Prod.mk.injEq, true_and]
    exact hobs
  · intro h1 h2 h3 hklt
    rw [hskip, pollFileStatus_unexpected hfk h1 h2 h3 (by omega)]
    simp only [Prod.mk.injEq, true_and]
    exact hobs
  · intro h1 h2 hkeq
    rw [hskip, pollFileStatus_timeout hfk h1 h2 (by omega)]
    simp only [Prod.mk.injEq, true_and]
    exact hobs

/-- Witness for C5's amended claim: job already `processed` on the first
poll resolves immediately, with the observer having seen exactly that
status. -/
theorem pollFileStatus_first_terminal_witness :
    pollFileStatus processedFirst 2000 30 0 =
      (.resolved processedStatus, (List.range 1).map (fun _ => processedStatus)) := by
  exact (pollFileStatus_first_terminal processedFirst (fun _ => processedStatus) 2000 1
    (fun i => rfl) (by omega) (by omega)
    (fun i hi1 hi2 => absurd hi2 (by omega))).1 rfl

/-- C5 counterexample to the claim as stated: when the first
out-of-contract status (`error`) arrives on the 30th poll, the poller
rejects with the `TimeoutError`, not with the `UnexpectedStatusError` the
claim requires. -/
theorem pollFileStatus_unexpected_shadowed_counterexample :
    (pollFileStatus lateErrorFetch 2000 30 0).1 =
      .rejected (.timeoutErr "File processing timeout - file is still processing") ∧
    (pollFileStatus lateErrorFetch 2000 30 0).1 ≠
      .rejected (.unexpectedStatus "error") := by
  have hskip := @pollFileStatus_skip lateErrorFetch 2000 30
    lateErrorStf 29 0 (by omega)
    (fun i hi1 hi2 => by
      refine ⟨rfl, ?_⟩
      unfold lateErrorStf
      rw [if_pos (by omega)]
      rfl)
  simp only [Nat.zero_add] at hskip
  have hf30 : lateErrorFetch (29 + 1) = .ok errorStatus := rfl
  have hterm := @pollFileStatus_timeout lateErrorFetch 2000 30 29 errorStatus
    hf30 (by decide) (by decide) (by omega)
  rw [hskip, hterm]
  simp

/-- C7.  Every poll iteration reports its fetched status to the
observer before the terminal decision of that iteration is evaluated:
the observer list contains, in order, exactly the statuses fetched on
attempts `a+1, a+2, …`, and whichever status the run terminates on
(resolution, processing-failure, timeout, or unexpected status) is the
last entry of the observer list — the observer sees every polled status,
including the terminal one. -/
theorem pollFileStatus_observer (fetch : Nat → Except String FileStatusResponse)
    (pi max a : Nat) (r : PollResult) (obs : List FileStatusResponse)
    (hr : pollFileStatus fetch pi max a = (r, obs)) :
    (∀ j (hj : j < obs.length), fetch (a + j + 1) = .ok (obs.get ⟨j, hj⟩)) ∧
    (obs = [] → ∃ e, fetch (a + 1) = .error e ∧ r = .rejected (.fetchFailed e)) ∧
    (∀ st, r = .resolved st → obs.getLast? = some st ∧ st.status = "processed") ∧
    (∀ d, r = .rejected (.processingFailed d) →
        ∃ st, obs.getLast? = some st ∧ st.status = "unknown" ∧
          d = strOrElse st.detail "File processing failed with unknown status") ∧
    (∀ m, r = .rejected (.timeoutErr m) → ∃ st, obs.getLast? = some st) ∧
    (∀ u, r = .rejected (.unexpectedStatus u) →
        ∃ st, obs.getLast? = some st ∧ st.status = u) := by
  cases hfe : fetch (a + 1) with
  | error e =>
    rw [pollFileStatus_fetch_error hfe] at hr
    injection hr with hr1 hr2
    subst hr1
    subst hr2
    refine ⟨?_, ?_, ?_, ?_, ?_, ?_⟩ <;> simp [hfe]
  | ok st =>
    by_cases h1 : st.status = "processed"
    · rw [pollFileStatus_processed hfe h1] at hr
      injection hr with hr1 hr2
      subst hr1
      subst hr2
      refine ⟨?_, by simp, ?_, by simp, by simp, by simp⟩
      · intro j hj
        simp only [List.length_singleton] at hj
        interval_cases j
        simpa using hfe
      · intro st2 hst2
        injection hst2 with h
        subst h
        exact ⟨rfl, h1⟩
    · by_cases h2 : st.status = "unknown"
      · rw [pollFileStatus_unknown hfe h2] at hr
        injection hr with hr1 hr2
        subst hr1
        subst hr2
        refine ⟨?_, by simp, by simp, ?_, by simp, by simp⟩
        · intro j hj
          simp only [List.length_singleton] at hj
          interval_cases j
          simpa using hfe
        · intro d hd
          injection hd with h
          injection h with h
          exact ⟨st, by simp, h2, h.symm⟩
      · by_cases hcap : a + 1 ≥ max
        · rw [pollFileStatus_timeout hfe h1 h2 hcap] at hr
          injection hr with hr1 hr2
          subst hr1
          subst hr2
          refine ⟨?_, by simp, by simp, by simp, fun m hm => ⟨st, by simp⟩, by simp⟩
          · intro j hj
            simp only [List.length_singleton] at hj
            interval_cases j
            simpa using hfe
        · by_cases h3 : st.status = "processing"
          · rw [pollFileStatus_processing_step hfe h3 (by omega)] at hr
            obtain ⟨r2, obs2, hrec⟩ :
                ∃ r2 obs2, pollFileStatus fetch pi max (a + 1) = (r2, obs2) :=
              ⟨_, _, rfl⟩
            rw [hrec] at hr
            injection hr with hr1 hr2
            subst hr1
            subst hr2
            have IH := pollFileStatus_observer fetch pi max (a + 1) r2 obs2 hrec
            obtain ⟨ih1, ih2, ih3, ih4, ih5, ih6⟩ := IH
            have hlast : ∀ st2 : FileStatusResponse,
                obs2.getLast? = some st2 → (st :: obs2).getLast? = some st2 := by
              intro st2 hst2
              cases obs2 with
              | nil => simp at hst2
              | cons b t => rw [List.getLast?_cons_cons]; exact hst2
            refine ⟨?_, by simp, ?_, ?_, ?_, ?_⟩
            · intro j hj
              cases j with
              | zero => simpa using hfe
              | succ kk =>
                simp only [List.length_cons, Nat.succ_lt_succ_iff] at hj
                have hidx : a + (kk + 1) + 1 = a + 1 + kk + 1 := by omega
                rw [hidx]
                simpa using ih1 kk hj
            · intro st2 hst2
              obtain ⟨hl, hs⟩ := ih3 st2 hst2
              exact ⟨hlast st2 hl, hs⟩
            · intro d hd
              obtain ⟨st2, hl, hs, hdd⟩ := ih4 d hd
              exact ⟨st2, hlast st2 hl, hs, hdd⟩
            · intro m hm
              obtain ⟨st2, hl⟩ := ih5 m hm
              exact ⟨st2, hlast st2 hl⟩
            · intro u hu
              obtain ⟨st2, hl, hs⟩ := ih6 u hu
              exact ⟨st2, hlast st2 hl, hs⟩
          · rw [pollFileStatus_unexpected hfe h1 h2 h3 (by omega)] at hr
            injection hr with hr1 hr2
            subst hr1
            subst hr2
            refine ⟨?_, by simp, by simp, by simp, by simp, ?_⟩
            · intro j hj
              simp only [List.length_singleton] at hj
              interval_cases j
              simpa using hfe
            · intro u hu
              injection hu with h
              injection h with h
              exact ⟨st, by simp, h⟩
termination_by max - a
decreasing_by omega

/-- Witness for C7 at a first-poll-`processed` job: the terminal status
is the last (and only) observer entry. -/
theorem pollFileStatus_observer_witness :
    [processedStatus].getLast? = some processedStatus ∧
      processedStatus.status = "processed" :=
  (pollFileStatus_observer processedFirst 2000 30 0 (.resolved processedStatus)
      [processedStatus] (pollFileStatus_processed rfl rfl)).2.2.1 processedStatus rfl

end ChatbotFrontend

namespace ChatbotFrontend

/-! ### Transport claims: per-step properties -/

/-- C2.  A close event with code 1008 (auth rejection / policy violation)
never schedules a retry, whatever the value of the reconnect attempt
counter: the 1008 early-return in `onclose` precedes the reconnect
check, so the emitted effects contain no `setTimeout` of a reconnect and
the set of pending reconnect timers is unchanged. -/
theorem close_1008_never_schedules (P : String → Option ChatMessage)
    (s s2 : WebSocketChatService) (effs : List Effect)
    (h : step P s (.closeEvent 1008) = some (s2, effs)) :
    effs.filter isScheduleEffect = [] ∧ s2.pendingReconnects = s.pendingReconnects := by
  cases hws : s.ws with
  | none =>
    simp only [step, hws] at h
    split at h
    · omega
    · exact absurd h (by simp)
  | some rs =>
    simp only [step, hws] at h
    by_cases hrs : rs = ReadyState.CLOSED
    · rw [if_pos hrs] at h
      exact absurd h (by simp)
    · rw [if_neg hrs] at h
      injection h with h
      injection h with h1 h2
      subst h1
      subst h2
      constructor
      · by_cases hch : s.connectionHandlerSet <;>
          simp [onclose, isScheduleEffect, hch]
      · simp [onclose]

/-- Witness for C2 at a concrete state with the counter mid-range. -/
theorem close_1008_never_schedules_witness :
    ([Effect.logInfo "WebSocket closed:", Effect.notifyConnection false,
        Effect.logInfo "Authentication failed, not attempting to reconnect"].filter
      isScheduleEffect = []) :=
  (close_1008_never_schedules fixedParse
      { initService (some "tok") with
        ws := some ReadyState.OPEN
        reconnectAttempts := 3 }
      { initService (some "tok") with
        ws := some ReadyState.CLOSED
        reconnectAttempts := 3 }
      [Effect.logInfo "WebSocket closed:", Effect.notifyConnection false,
        Effect.logInfo "Authentication failed, not attempting to reconnect"]
      (by decide)).1

end ChatbotFrontend

namespace ChatbotFrontend

/-- C8.  Evolution of the reconnect attempt counter under every possible
step: a successful open handshake (the `onopen` handler) resets it to 0,
the firing of a scheduled retry timer increments it by exactly 1, and no
other event changes it.  (Being a `Nat`, the counter is non-negative by
type.) -/
theorem reconnectAttempts_evolution (P : String → Option ChatMessage)
    (s : WebSocketChatService) (e : Ev) (r : WebSocketChatService × List Effect)
    (h : step P s e = some r) :
    r.1.reconnectAttempts =
      match e with
      | .openEvent => 0
      | .timerFire => s.reconnectAttempts + 1
      | _ => s.reconnectAttempts := by
  cases e with
  | connectRequest =>
    simp only [step] at h
    cases hts : s.storedToken with
    | none =>
      simp only [connectCall, hts] at h
      injection h with h
      subst h
      rfl
    | some token =>
      simp only [connectCall, hts] at h
      by_cases htok : token = ""
      · rw [if_pos htok] at h
        injection h with h
        subst h
        rfl
      · rw [if_neg htok] at h
        injection h with h
        subst h
        rfl
  | openEvent =>
    cases hws : s.ws with
    | none =>
      simp only [step, hws] at h
      exact absurd h (by simp)
    | some rs =>
      simp only [step, hws] at h
      cases rs with
      | CONNECTING =>
        injection h with h
        subst h
        rfl
      | OPEN => exact absurd h (by simp)
      | CLOSING => exact absurd h (by simp)
      | CLOSED => exact absurd h (by simp)
  | messageEvent payload =>
    cases hws : s.ws with
    | none =>
      simp only [step, hws] at h
      exact absurd h (by simp)
    | some rs =>
      simp only [step, hws] at h
      cases rs with
      | OPEN =>
        injection h with h
        subst h
        rfl
      | CONNECTING => exact absurd h (by simp)
      | CLOSING => exact absurd h (by simp)
      | CLOSED => exact absurd h (by simp)
  | closeEvent code =>
    cases hws : s.ws with
    | none =>
      simp only [step, hws] at h
      split at h
      · injection h with h
        subst h
        simp only [onclose]
        split
        · rfl
        · split <;> simp [scheduleReconnect]
      · exact absurd h (by simp)
    | some rs =>
      simp only [step, hws] at h
      by_cases hrs : rs = ReadyState.CLOSED
      · rw [if_pos hrs] at h
        exact absurd h (by simp)
      · rw [if_neg hrs] at h
        injection h with h
        subst h
        simp only [onclose]
        split
        · rfl
        · split <;> simp [scheduleReconnect]
  | timerFire =>
    by_cases hp : s.pendingReconnects = 0
    · simp only [step, if_pos hp] at h
      exact absurd h (by simp)
    · simp only [step, if_neg hp] at h
      injection h with h
      subst h
      cases hts : s.storedToken with
      | none => simp [reconnectTimerFire, connectCall, hts]
      | some token =>
        by_cases htok : token = ""
        · simp [reconnectTimerFire, connectCall, hts, htok]
        · simp [reconnectTimerFire, connectCall, hts, htok]
  | disconnectRequest =>
    simp only [step] at h
    injection h with h
    subst h
    simp only [disconnect]
    cases hws : s.ws <;> simp [hws]

/-- Witness for C8: the open handshake resets a counter of 4 to 0. -/
theorem reconnectAttempts_evolution_witness :
    (({ initService (some "tok") with ws := some ReadyState.OPEN } :
        WebSocketChatService),
      [Effect.logInfo "WebSocket connected", Effect.notifyConnection true,
        Effect.resolveConnect]).1.reconnectAttempts = 0 :=
  reconnectAttempts_evolution fixedParse
    { initService (some "tok") with
      ws := some ReadyState.CONNECTING
      reconnectAttempts := 4 }
    .openEvent
    ({ initService (some "tok") with ws := some ReadyState.OPEN },
      [Effect.logInfo "WebSocket connected", Effect.notifyConnection true,
        Effect.resolveConnect])
    (by decide)

end ChatbotFrontend

namespace ChatbotFrontend

/-- C10.  When no bearer token is stored, `connect()` throws
`'No authentication token available'` before any socket is constructed:
the returned promise rejects with that error, the service state is
completely unchanged (so the connection state stays as it was — in
particular `disconnected` stays `disconnected`), and the only emitted
effect is the rejection: no socket creation, no connectivity callback,
no reconnect scheduling. -/
theorem connect_without_token_rejects (P : String → Option ChatMessage)
    (s : WebSocketChatService) (h : s.storedToken = none) :
    step P s .connectRequest =
      some (s, [.rejectConnect "No authentication token available"]) := by
  simp [step, connectCall, h]

/-- Witness for C10 at the freshly constructed service with no token. -/
theorem connect_without_token_rejects_witness :
    step fixedParse (initService none) .connectRequest =
      some (initService none,
        [.rejectConnect "No authentication token available"]) :=
  connect_without_token_rejects fixedParse (initService none) rfl

/-- C6.  `sendMessage` fails with the `NotConnectedError`
(`'WebSocket is not connected'`) whenever the connection state is not
`connected` — in particular in the `disconnected` and `connecting`
states no send can succeed — and when the state is `connected` (which
requires the socket handle to be non-null, with `readyState` `OPEN`) it
emits exactly one frame, the JSON encoding of the object
`\x7bmessage: text\x7d`. -/
theorem sendMessage_spec (s : WebSocketChatService) (text : String) :
    (connectionState s ≠ .connected →
      sendMessage s text = .error "WebSocket is not connected") ∧
    (connectionState s = .connected →
      s.ws = some .OPEN ∧
      sendMessage s text =
        .ok [.sendFrame ("\x7b\"message\":" ++ jsonQuote text ++ "\x7d")]) := by
  cases hws : s.ws with
  | none =>
    refine ⟨fun _ => by simp [sendMessage, hws], fun hc => ?_⟩
    simp [connectionState, hws] at hc
  | some rs =>
    cases rs with
    | OPEN =>
      refine ⟨fun hc => absurd (by simp [connectionState, hws]) hc, fun _ => ?_⟩
      exact ⟨rfl, by simp [sendMessage, hws, jsonStringifyWebSocketMessage]⟩
    | CONNECTING =>
      refine ⟨fun _ => by simp [sendMessage, hws], fun hc => ?_⟩
      simp [connectionState, hws] at hc
    | CLOSING =>
      refine ⟨fun _ => by simp [sendMessage, hws], fun hc => ?_⟩
      simp [connectionState, hws] at hc
    | CLOSED =>
      refine ⟨fun _ => by simp [sendMessage, hws], fun hc => ?_⟩
      simp [connectionState, hws] at hc

/-- Witness for C6: while connected, sending `"hello"` emits exactly the
frame `\x7b"message":"hello"\x7d`; before `connect()` resolves (state
`connecting`) the send throws. -/
theorem sendMessage_spec_witness :
    sendMessage { initService (some "tok") with ws := some ReadyState.OPEN } "hello" =
      .ok [.sendFrame "\x7b\"message\":\"hello\"\x7d"] ∧
    sendMessage { initService (some "tok") with ws := some ReadyState.CONNECTING }
        "hello" = .error "WebSocket is not connected" := by
  constructor
  · have h := (sendMessage_spec
      { initService (some "tok") with ws := some ReadyState.OPEN } "hello").2 rfl
    rw [h.2]
    rfl
  · exact (sendMessage_spec
      { initService (some "tok") with ws := some ReadyState.CONNECTING } "hello").1
      (by decide)

/-- C9.  The `onmessage` handler parses the inbound payload as JSON:
when parsing fails the error is caught and logged and nothing reaches
the registered message handler (no raw-text fallback); when parsing
succeeds the parsed value is delivered to the registered handler exactly
once. -/
theorem onmessage_spec (P : String → Option ChatMessage)
    (s : WebSocketChatService) (payload : String) :
    (P payload = none →
      onmessage P s payload = [.logError "Failed to parse WebSocket message:"]) ∧
    (∀ d, P payload = some d →
      (onmessage P s payload).filter isDeliverEffect =
        if s.messageHandlerSet then [.deliverMessage d] else []) := by
  constructor
  · intro h
    simp [onmessage, h]
  · intro d h
    by_cases hset : s.messageHandlerSet <;>
      simp [onmessage, h, hset, isDeliverEffect]

/-- Witness for C9: a malformed payload is dropped with a log, and a
well-formed one is delivered exactly once. -/
theorem onmessage_spec_witness :
    onmessage fixedParse (initService (some "tok")) "not json" =
      [.logError "Failed to parse WebSocket message:"] ∧
    (onmessage fixedParse (initService (some "tok"))
        "\x7b\"sender\":\"bot\",\"message\":\"hi\",\"timestamp\":\"t0\"\x7d").filter
      isDeliverEffect =
      [.deliverMessage { sender := "bot", message := "hi", timestamp := "t0" }] := by
  constructor
  · exact (onmessage_spec fixedParse (initService (some "tok")) "not json").1 (by decide)
  · have h := (onmessage_spec fixedParse (initService (some "tok"))
      "\x7b\"sender\":\"bot\",\"message\":\"hi\",\"timestamp\":\"t0\"\x7d").2
      { sender := "bot", message := "hi", timestamp := "t0" } (by decide)
    rw [h]
    decide

/-- C3 (code evaluated at the failing input).  `disconnect()` while a
reconnect timer is pending: the source stores no timer handle and never
calls `clearTimeout`, so after `connect` → unexpected close (1006, which
schedules a retry) → `disconnect()`, the service is disconnected
(`ws = null`) with the timer still pending; the timer then fires and
performs a connect attempt (a new `WebSocket` is constructed) after the
manual `disconnect()`. -/
theorem disconnect_pending_timer_still_fires :
    run fixedParse (initService (some "tok"))
        [.connectRequest, .closeEvent 1006, .disconnectRequest] =
      ({ initService (some "tok") with pendingReconnects := 1 },
        [.createSocket "ws://localhost:8000/ws/chat?token=tok",
         .logInfo "WebSocket closed:", .notifyConnection false,
         .logInfo "Scheduling reconnect", .scheduleReconnect 1000,
         .closeSocket 1000 "Manual disconnect"]) ∧
    step fixedParse { initService (some "tok") with pendingReconnects := 1 }
        .timerFire =
      some ({ initService (some "tok") with
              ws := some ReadyState.CONNECTING
              reconnectAttempts := 1 },
        [.createSocket "ws://localhost:8000/ws/chat?token=tok"]) := by
  decide

end ChatbotFrontend

namespace ChatbotFrontend

/-! ### C1: the backoff policy -/

lemma countSchedules_append (a b : List Effect) :
    countSchedules (a ++ b) = countSchedules a + countSchedules b := by
  simp [countSchedules, List.filter_append]

lemma countSchedules_onmessage (P : String → Option ChatMessage)
    (s : WebSocketChatService) (payload : String) :
    countSchedules (onmessage P s payload) = 0 := by
  unfold onmessage
  cases P payload <;> by_cases h : s.messageHandlerSet <;>
    simp [countSchedules, isScheduleEffect, h]

/-- One allowed step (no `connect()` call, no successful open) preserves
the at-most-one-in-flight invariant and can only spend schedule budget. -/
lemma step_sched_bound (P : String → Option ChatMessage)
    (s : WebSocketChatService) (e : Ev) (r : WebSocketChatService × List Effect)
    (he1 : e ≠ Ev.connectRequest) (he2 : e ≠ Ev.openEvent)
    (hinv : s.pendingReconnects + liveCount s ≤ 1)
    (h : step P s e = some r) :
    r.1.pendingReconnects + liveCount r.1 ≤ 1 ∧
      countSchedules r.2 + schedBound r.1 ≤ schedBound s := by
  cases e with
  | connectRequest => exact absurd rfl he1
  | openEvent => exact absurd rfl he2
  | messageEvent payload =>
    cases hws : s.ws with
    | none =>
      simp only [step, hws] at h
      exact absurd h (by simp)
    | some rs =>
      cases rs with
      | OPEN =>
        simp only [step, hws] at h
        injection h with h
        subst h
        exact ⟨hinv, by simp [countSchedules_onmessage]⟩
      | CONNECTING => simp only [step, hws] at h; exact absurd h (by simp)
      | CLOSING => simp only [step, hws] at h; exact absurd h (by simp)
      | CLOSED => simp only [step, hws] at h; exact absurd h (by simp)
  | closeEvent code =>
    have hcount : countSchedules
        ([Effect.logInfo "WebSocket closed:"] ++
          (if s.connectionHandlerSet then [Effect.notifyConnection false] else [])) = 0 := by
      by_cases hch : s.connectionHandlerSet <;>
        simp [countSchedules, isScheduleEffect, hch]
    cases hws : s.ws with
    | none =>
      simp only [step, hws] at h
      split at h
      next hg =>
        injection h with h
        subst h
        have hc1000 : code = 1000 := hg.2
        simp only [onclose, hc1000]
        rw [if_neg (by decide)]
        rw [if_neg (by simp)]
        constructor
        · have := hinv
          simp only [liveCount, hws] at this ⊢
          simpa using this
        · rw [hcount]
          simp [schedBound, liveCount, hws]
      next => exact absurd h (by simp)
    | some rs =>
      simp only [step, hws] at h
      by_cases hrs : rs = ReadyState.CLOSED
      · rw [if_pos hrs] at h
        exact absurd h (by simp)
      · rw [if_neg hrs] at h
        injection h with h
        subst h
        have hlive : liveCount s = 1 := by
          cases rs with
          | CONNECTING => simp [liveCount, hws]
          | OPEN => simp [liveCount, hws]
          | CLOSING => simp [liveCount, hws]
          | CLOSED => exact absurd rfl hrs
        have hp0 : s.pendingReconnects = 0 := by omega
        simp only [onclose]
        split
        · -- code = 1008: no schedule, socket now CLOSED
          constructor
          · simp [liveCount, hp0]
          · rw [countSchedules_append, hcount]
            simp [countSchedules, isScheduleEffect, schedBound, liveCount, hp0]
        · split
          next hg =>
            -- schedule branch: one schedule, pending goes to 1
            constructor
            · simp [scheduleReconnect, liveCount, hp0]
            · simp only [scheduleReconnect]
              rw [countSchedules_append, hcount]
              have hone : countSchedules
                  [Effect.logInfo "Scheduling reconnect",
                    Effect.scheduleReconnect
                      (reconnectDelay * 2 ^ s.reconnectAttempts)] = 1 := by
                simp [countSchedules, isScheduleEffect]
              rw [hone]
              have ha : s.reconnectAttempts < 5 := by
                have := hg.2
                simpa [maxReconnectAttempts] using this
              have hbs : schedBound s = 5 - s.reconnectAttempts := by
                simp [schedBound, hlive, maxReconnectAttempts]
              rw [hbs]
              have hbs2 : schedBound
                  { s with ws := some ReadyState.CLOSED,
                           pendingReconnects := s.pendingReconnects + 1 } =
                  5 - (s.reconnectAttempts + 1) := by
                simp [schedBound, liveCount, hp0, maxReconnectAttempts]
              rw [hbs2]
              omega
          next =>
            constructor
            · simp [liveCount, hp0]
            · rw [hcount]
              simp [schedBound, liveCount, hp0]
  | timerFire =>
    by_cases hp : s.pendingReconnects = 0
    · simp only [step, if_pos hp] at h
      exact absurd h (by simp)
    · simp only [step, if_neg hp] at h
      injection h with h
      subst h
      have hl0 : liveCount s = 0 := by omega
      have hp1 : s.pendingReconnects = 1 := by omega
      have hnl : ¬ (s.ws = some ReadyState.CONNECTING ∨ s.ws = some ReadyState.OPEN ∨
          s.ws = some ReadyState.CLOSING) := by
        intro hcon
        simp [liveCount, hcon] at hl0
      cases hts : s.storedToken with
      | none =>
        constructor
        · simp [reconnectTimerFire, connectCall, hts, liveCount, hnl, hp1]
        · simp [reconnectTimerFire, connectCall, hts, countSchedules, isScheduleEffect,
            schedBound, liveCount, hnl, hp1, maxReconnectAttempts]
      | some token =>
        by_cases htok : token = ""
        · constructor
          · simp [reconnectTimerFire, connectCall, hts, htok, liveCount, hnl, hp1]
          · simp [reconnectTimerFire, connectCall, hts, htok, countSchedules,
              isScheduleEffect, schedBound, liveCount, hnl, hp1, maxReconnectAttempts]
        · constructor
          · simp [reconnectTimerFire, connectCall, hts, htok, liveCount, hp1]
          · have hbs : schedBound s = 5 - (s.reconnectAttempts + 1) := by
              simp [schedBound, hl0, hp1, maxReconnectAttempts]
            rw [hbs]
            simp [reconnectTimerFire, connectCall, hts, htok, countSchedules,
              isScheduleEffect, schedBound, liveCount, maxReconnectAttempts]
  | disconnectRequest =>
    simp only [step] at h
    injection h with h
    subst h
    simp only [disconnect]
    cases hws : s.ws with
    | none => exact ⟨by simpa using hinv, by simp [countSchedules]⟩
    | some rs =>
      have hcount2 : countSchedules [Effect.closeSocket 1000 "Manual disconnect"] = 0 := by
        simp [countSchedules, isScheduleEffect]
      constructor
      · have := hinv
        simp only [liveCount] at this ⊢
        simp only [Option.some.injEq, reduceCtorEq, or_self, if_false]
        simp
        omega
      · rw [hcount2]
        cases rs with
        | CLOSED =>
          simp [schedBound, liveCount, hws]
        | CONNECTING =>
          have hp0 : s.pendingReconnects = 0 := by
            have := hinv
            simp [liveCount, hws] at this
            omega
          simp [schedBound, liveCount, hws, hp0]
        | OPEN =>
          have hp0 : s.pendingReconnects = 0 := by
            have := hinv
            simp [liveCount, hws] at this
            omega
          simp [schedBound, liveCount, hws, hp0]
        | CLOSING =>
          have hp0 : s.pendingReconnects = 0 := by
            have := hinv
            simp [liveCount, hws] at this
            omega
          simp [schedBound, liveCount, hws, hp0]

end ChatbotFrontend

namespace ChatbotFrontend

/-- Trace-level schedule budget: without a `connect()` call or a
successful open, a run spends at most `schedBound` reconnect
schedulings. -/
lemma run_sched_bound (P : String → Option ChatMessage) :
    ∀ (es : List Ev) (s : WebSocketChatService),
      noConnectNoOpen es → s.pendingReconnects + liveCount s ≤ 1 →
      countSchedules (run P s es).2 ≤ schedBound s := by
  intro es
  induction es with
  | nil =>
    intro s hno hinv
    simp [run, countSchedules]
  | cons e es ih =>
    intro s hno hinv
    have hne := hno e (List.mem_cons_self ..)
    have hno2 : noConnectNoOpen es := fun x hx => hno x (List.mem_cons_of_mem _ hx)
    cases hstep : step P s e with
    | none => simpa [run, hstep] using ih s hno2 hinv
    | some r =>
      obtain ⟨hinv2, hbound⟩ := step_sched_bound P s e r hne.1 hne.2 hinv hstep
      have hrec := ih r.1 hno2 hinv2
      simp only [run, hstep]
      rw [countSchedules_append]
      omega

/-- C1.  The exponential-backoff reconnect policy, in three parts.
First: a close event with code neither 1000 nor 1008, arriving with
attempt counter `n ≤ 4`, emits exactly one reconnect scheduling, with
delay `reconnectDelay * 2 ^ n` (base delay 1000 ms).  Second: once the
counter has reached `maxReconnectAttempts` (5), a close event emits no
scheduling at all.  Third: from any freshly-connected configuration
(counter 0, no pending timer, one live socket), any event sequence
containing no external `connect()` call and no successful open handshake
schedules at most 5 retries in total — a 6th reconnect attempt never
fires. -/
theorem reconnect_backoff_policy (P : String → Option ChatMessage) :
    (∀ (s : WebSocketChatService) (code n : Nat)
        (r : WebSocketChatService × List Effect),
      s.reconnectAttempts = n → n ≤ 4 → code ≠ 1000 → code ≠ 1008 →
      step P s (.closeEvent code) = some r →
      r.2.filter isScheduleEffect = [.scheduleReconnect (reconnectDelay * 2 ^ n)]) ∧
    (∀ (s : WebSocketChatService) (code : Nat)
        (r : WebSocketChatService × List Effect),
      maxReconnectAttempts ≤ s.reconnectAttempts →
      step P s (.closeEvent code) = some r →
      r.2.filter isScheduleEffect = []) ∧
    (∀ (s : WebSocketChatService) (es : List Ev),
      noConnectNoOpen es → s.reconnectAttempts = 0 → s.pendingReconnects = 0 →
      liveCount s = 1 →
      countSchedules (run P s es).2 ≤ 5) := by
  refine ⟨?_, ?_, ?_⟩
  · intro s code n r hn hle h1000 h1008 h
    subst hn
    cases hws : s.ws with
    | none =>
      simp only [step, hws] at h
      split at h
      next hg => exact absurd hg.2 h1000
      next => exact absurd h (by simp)
    | some rs =>
      simp only [step, hws] at h
      by_cases hrs : rs = ReadyState.CLOSED
      · rw [if_pos hrs] at h
        exact absurd h (by simp)
      · rw [if_neg hrs] at h
        injection h with h
        subst h
        simp only [onclose]
        rw [if_neg (by simpa using h1008)]
        rw [if_pos ⟨by simpa using h1000, by simp [maxReconnectAttempts]; omega⟩]
        by_cases hch : s.connectionHandlerSet <;>
          simp [scheduleReconnect, isScheduleEffect, hch]
  · intro s code r hge h
    cases hws : s.ws with
    | none =>
      simp only [step, hws] at h
      split at h
      next hg =>
        injection h with h
        subst h
        simp only [onclose, hg.2]
        rw [if_neg (by decide), if_neg (by simp)]
        by_cases hch : s.connectionHandlerSet <;> simp [isScheduleEffect, hch]
      next => exact absurd h (by simp)
    | some rs =>
      simp only [step, hws] at h
      by_cases hrs : rs = ReadyState.CLOSED
      · rw [if_pos hrs] at h
        exact absurd h (by simp)
      · rw [if_neg hrs] at h
        injection h with h
        subst h
        simp only [onclose]
        by_cases hc : code = 1008
        · rw [if_pos hc]
          by_cases hch : s.connectionHandlerSet <;> simp [isScheduleEffect, hch]
        · rw [if_neg hc]
          rw [if_neg (by simp only [maxReconnectAttempts] at hge ⊢; omega)]
          by_cases hch : s.connectionHandlerSet <;> simp [isScheduleEffect, hch]
  · intro s es hno ha hp hl
    have hb := run_sched_bound P es s hno (by omega)
    have hbs : schedBound s = 5 := by
      simp [schedBound, hl, ha, maxReconnectAttempts]
    omega

/-- Witness for C1: a 1006 close with counter 2 schedules exactly one
retry with delay 4000 ms, and a concrete post-connect trace of repeated
unexpected closes and timer firings schedules at most 5 retries. -/
theorem reconnect_backoff_policy_witness :
    ([Effect.logInfo "WebSocket closed:", Effect.notifyConnection false,
        Effect.logInfo "Scheduling reconnect",
        Effect.scheduleReconnect 4000].filter isScheduleEffect =
      [Effect.scheduleReconnect 4000]) ∧
    countSchedules (run fixedParse
      { initService (some "tok") with ws := some ReadyState.CONNECTING }
      [.closeEvent 1006, .timerFire, .closeEvent 1006, .timerFire,
       .closeEvent 1006, .timerFire, .closeEvent 1006, .timerFire,
       .closeEvent 1006, .timerFire, .closeEvent 1006, .timerFire]).2 ≤ 5 := by
  constructor
  · exact (reconnect_backoff_policy fixedParse).1
      { initService (some "tok") with
        ws := some ReadyState.OPEN
        reconnectAttempts := 2 }
      1006 2
      ({ initService (some "tok") with
         ws := some ReadyState.CLOSED
         reconnectAttempts := 2
         pendingReconnects := 1 },
       [Effect.logInfo "WebSocket closed:", Effect.notifyConnection false,
        Effect.logInfo "Scheduling reconnect", Effect.scheduleReconnect 4000])
      rfl (by omega) (by decide) (by decide) (by decide)
  · exact (reconnect_backoff_policy fixedParse).2.2
      { initService (some "tok") with ws := some ReadyState.CONNECTING }
      [.closeEvent 1006, .timerFire, .closeEvent 1006, .timerFire,
       .closeEvent 1006, .timerFire, .closeEvent 1006, .timerFire,
       .closeEvent 1006, .timerFire, .closeEvent 1006, .timerFire]
      (by decide) rfl rfl (by decide)

end ChatbotFrontend
